import Mathlib

/-!
Verification of the shopify-insights-fetcher extraction pipeline.

This development shallowly embeds the data model and the pure control logic of
the repository (URL validation and normalization, the orchestrator's
result-aggregation pipeline, the extraction metrics accumulator, FAQ
deduplication, AI-validation merge policy, currency-detection cascade, and the
legacy scraper pipeline) and proves or refutes the specified properties.

Modelling conventions:
- Python `str` is modelled by Lean `String` (ASCII-faithful); `str.strip` and
  `str.rstrip` are modelled explicitly.
- Python dicts used as ordered key-value maps are modelled by association
  lists in insertion order.
- Floats that only flow through comparisons and exact arithmetic (confidence
  scores, success ratios, durations) are modelled by `ℚ`; float formatting of
  prices is out of scope and omitted.
- External collaborators (HTTP session, BeautifulSoup parsing, the Gemini
  client, extractor services) are parameters of the embedded functions,
  matching the spec's designation of them as black boxes.
-/

namespace Shopify

/-- Substring test on character lists: some contiguous run of `hay` equals `needle`. -/
def containsSub (needle : List Char) : List Char → Bool
  | [] => needle.isEmpty
  | hay@(_ :: t) => needle.isPrefixOf hay || containsSub needle t

/-- Python substring membership `needle in hay`. -/
def pyIn (needle hay : String) : Bool := containsSub needle.data hay.data

/-- Characters stripped by Python `str.strip()` for ASCII input. -/
def isPySpace (c : Char) : Bool :=
  c == ' ' || c == '\t' || c == '\n' || c == '\r' || c == '\x0b' || c == '\x0c'

/-- Python `str.strip()` (ASCII whitespace). -/
def pyStrip (s : String) : String :=
  ⟨((s.data.dropWhile isPySpace).reverse.dropWhile isPySpace).reverse⟩

/-- Python `str.rstrip('/')`: drop all trailing slash characters. -/
def rstripSlashes (s : String) : String :=
  ⟨(s.data.reverse.dropWhile (· == '/')).reverse⟩

/-- Python `str.startswith` (also used for the tuple form, one call per
alternative). -/
def pyStartsWith (s pre : String) : Bool := pre.data.isPrefixOf s.data

/-- Python `str.lower()` (ASCII-faithful). -/
def pyToLower (s : String) : String := ⟨s.data.map Char.toLower⟩

/-- Python `str.upper()` (ASCII-faithful). -/
def pyToUpper (s : String) : String := ⟨s.data.map Char.toUpper⟩

/-- utils/helpers.py `normalize_url` (lines 24-41); the same body also appears
as `ShopifyScraperService._normalize_url` (services/scraper.py lines 118-126):
prepend the scheme if missing, then remove trailing slashes. -/
def normalize_url (url : String) : String :=
  let url := if !(pyStartsWith url "http://" || pyStartsWith url "https://")
             then "https://" ++ url else url
  rstripSlashes url

theorem dropWhile_dropWhile_self {α : Type} (p : α → Bool) (l : List α) :
    (l.dropWhile p).dropWhile p = l.dropWhile p := by
  induction l with
  | nil => rfl
  | cons x xs ih =>
    by_cases h : p x
    · simp [List.dropWhile_cons, h, ih]
    · simp [List.dropWhile_cons, h]

theorem rstripSlashes_rstripSlashes (s : String) :
    rstripSlashes (rstripSlashes s) = rstripSlashes s := by
  simp [rstripSlashes, dropWhile_dropWhile_self]

theorem rstripSlashes_append_of_exists (a b : String)
    (h : ∃ c ∈ b.data, ¬(c == '/')) :
    rstripSlashes (a ++ b) = a ++ rstripSlashes b := by
  obtain ⟨c, hc, hcs⟩ := h
  have hdata : (a ++ b).data = a.data ++ b.data := rfl
  have hne : b.data.reverse.dropWhile (· == '/') ≠ [] := by
    intro hnil
    rw [List.dropWhile_eq_nil_iff] at hnil
    exact hcs (hnil c (List.mem_reverse.mpr hc))
  have hrhs : (a ++ rstripSlashes b).data
      = a.data ++ (b.data.reverse.dropWhile (· == '/')).reverse := rfl
  apply String.ext
  rw [hrhs]
  show ((a.data ++ b.data).reverse.dropWhile (· == '/')).reverse = _
  rw [List.reverse_append, List.dropWhile_append]
  simp [hne]

/-- services/base.py `ExtractionResult` enumeration (lines 17-24). -/
inductive ExtractionResult where
  | success
  | partial_success
  | failure
  | timeout
  | invalid_input
  | rate_limited
deriving DecidableEq, Repr

/-- services/base.py `OperationResult` dataclass (lines 26-51). The free-form
`metadata` map is observability-only (echoed into summaries) and is omitted;
`warnings=None` normalises to `[]` in `__post_init__`, so the field is a plain
list here. -/
structure OperationResult (α : Type) where
  status : ExtractionResult
  data : Option α := none
  error_message : Option String := none
  warnings : List String := []
deriving DecidableEq, Repr

/-- services/base.py `OperationResult.is_success`. -/
def OperationResult.is_success {α : Type} (r : OperationResult α) : Bool :=
  r.status == .success

/-- services/base.py `OperationResult.is_partial_success`. -/
def OperationResult.is_partial_success {α : Type} (r : OperationResult α) : Bool :=
  r.status == .partial_success

/-- services/base.py `OperationResult.has_data`. -/
def OperationResult.has_data {α : Type} (r : OperationResult α) : Bool :=
  r.data.isSome

/-- Python `f"...{x}..."` interpolation of an `Optional[str]`: `None` prints
as the four characters None. -/
def optMsg (o : Option String) : String := o.getD "None"

/-- Characters allowed after the first letter of a URL scheme by
`urllib.parse.urlparse`. -/
def isSchemeChar (c : Char) : Bool :=
  c.isAlphanum || c == '+' || c == '-' || c == '.'

/-- Scan for the `:` ending a scheme; accumulator holds the scanned scheme
characters in reverse. -/
def schemeSplitAux (acc : List Char) : List Char → Option (List Char × List Char)
  | [] => none
  | c :: rest =>
    if c == ':' then some (acc.reverse, rest)
    else if isSchemeChar c then schemeSplitAux (c :: acc) rest
    else none

/-- `urllib.parse.urlparse` scheme recognition: a leading
`letter (letter|digit|+|-|.)* :` prefix is the (lowercased) scheme; otherwise
the scheme is empty and the whole string remains. -/
def urlparseSchemeRest (s : List Char) : List Char × List Char :=
  match s with
  | [] => ([], [])
  | c :: rest =>
    if c.isAlpha then
      match schemeSplitAux [c] rest with
      | some (sch, r) => (sch.map Char.toLower, r)
      | none => ([], s)
    else ([], s)

/-- `urllib.parse.urlparse` netloc: present only when the post-scheme text
starts with `//`; it extends to the next `/`, `?` or `#`. -/
def urlparseNetloc (s : List Char) : List Char :=
  let rest := (urlparseSchemeRest s).2
  if rest.take 2 = ['/', '/'] then
    (rest.drop 2).takeWhile (fun c => !(c == '/' || c == '?' || c == '#'))
  else []

/-- services/base.py `URLValidator.validate_url` (lines 71-116). The
`isinstance` guard and the defensive `except` are unreachable for string
input and are omitted; the Shopify-indicator metadata is observability-only
and omitted with the metadata map. -/
def validate_url (url : String) : OperationResult String :=
  if url = "" then
    { status := .invalid_input, error_message := some "URL cannot be empty or None" }
  else
    let url := pyStrip url
    let url := if !(pyStartsWith url "http://" || pyStartsWith url "https://")
               then "https://" ++ url else url
    let scheme := (urlparseSchemeRest url.data).1
    if !(scheme = "http".data || scheme = "https".data) then
      { status := .invalid_input
        error_message := some ("Invalid URL scheme: " ++ String.mk scheme) }
    else
      let netloc := urlparseNetloc url.data
      if netloc = [] then
        { status := .invalid_input, error_message := some "Invalid URL: no domain found" }
      else
        { status := .success, data := some url }

/-- C9 counterexample: normalization is NOT idempotent for every input. The
empty string normalizes to the bare token https: (the prepended scheme whose
slashes are then right-stripped), and renormalizing prepends a second scheme,
so normalize(normalize u) differs from normalize(u) at u = the empty string. -/
theorem C9_normalize_counterexample :
    normalize_url (normalize_url "") ≠ normalize_url "" := by decide

/-- C9 (amended): for every URL missing a scheme, normalization prepends
https:// (modulo trailing-slash stripping, provided the input is not made of
slashes alone); and normalization is idempotent for every input whose
normalized form still begins with http:// or https:// — degenerate inputs
such as the empty string or a bare scheme collapse to a schemeless token and
are re-prefixed on renormalization. -/
theorem C9_normalize_amended :
    (∀ u : String,
      (pyStartsWith u "http://" || pyStartsWith u "https://") = false →
      (∃ c ∈ u.data, ¬(c == '/')) →
      normalize_url u = "https://" ++ rstripSlashes u) ∧
    (∀ u : String,
      (pyStartsWith (normalize_url u) "http://"
        || pyStartsWith (normalize_url u) "https://") = true →
      normalize_url (normalize_url u) = normalize_url u) := by
  constructor
  · intro u h1 h2
    show rstripSlashes (if !(pyStartsWith u "http://" || pyStartsWith u "https://")
        then "https://" ++ u else u) = _
    rw [h1]
    simpa using rstripSlashes_append_of_exists "https://" u h2
  · intro u h
    show rstripSlashes (if !(pyStartsWith (normalize_url u) "http://"
        || pyStartsWith (normalize_url u) "https://")
        then "https://" ++ normalize_url u else normalize_url u) = _
    rw [h]
    show rstripSlashes (normalize_url u) = normalize_url u
    exact rstripSlashes_rstripSlashes _

/-- C9 witness: the amended theorem applied at shop.example.com (scheme-less,
so https:// is prepended) and at https://shop.example.com/ (whose normalized
form keeps its scheme, so renormalization is the identity on it). -/
theorem C9_normalize_witness :
    normalize_url "shop.example.com" = "https://" ++ rstripSlashes "shop.example.com" ∧
    normalize_url (normalize_url "https://shop.example.com/")
      = normalize_url "https://shop.example.com/" :=
  ⟨C9_normalize_amended.1 "shop.example.com" (by decide) ⟨'s', by decide, by decide⟩,
   C9_normalize_amended.2 "https://shop.example.com/" (by decide)⟩

/-! Data model (models.py). Pydantic models become structures; `Optional[T]`
becomes `Option T`; confidence scores (floats used only in comparisons)
become `ℚ`. `extraction_timestamp` (wall-clock) and the float-valued derived
price fields of `Product` are omitted: time and float formatting are out of
the embedding's scope and no claim touches them. -/

/-- models.py `Product` (string-valued fields; derived float price fields
omitted, see section comment). -/
structure Product where
  id : Option String := none
  title : String
  handle : Option String := none
  description : Option String := none
  price : Option String := none
  compare_at_price : Option String := none
  vendor : Option String := none
  product_type : Option String := none
  tags : List String := []
  images : List String := []
  url : Option String := none
  available : Option Bool := none
  currency : Option String := none
  currency_symbol : Option String := none
deriving DecidableEq, Repr

/-- models.py `FAQ`. -/
structure FAQ where
  question : String
  answer : String
deriving DecidableEq, Repr

/-- models.py `SocialHandles`. -/
structure SocialHandles where
  instagram : Option String := none
  facebook : Option String := none
  tiktok : Option String := none
  twitter : Option String := none
  youtube : Option String := none
  linkedin : Option String := none
  pinterest : Option String := none
deriving DecidableEq, Repr

/-- models.py `ContactDetails`. -/
structure ContactDetails where
  emails : List String := []
  phone_numbers : List String := []
  address : Option String := none
deriving DecidableEq, Repr

/-- models.py `ImportantLinks`. -/
structure ImportantLinks where
  order_tracking : Option String := none
  contact_us : Option String := none
  blogs : Option String := none
  size_guide : Option String := none
  shipping_info : Option String := none
  about_us : Option String := none
  careers : Option String := none
deriving DecidableEq, Repr

/-- models.py `PolicyInfo`. -/
structure PolicyInfo where
  privacy_policy_url : Option String := none
  privacy_policy_content : Option String := none
  return_policy_url : Option String := none
  return_policy_content : Option String := none
  refund_policy_url : Option String := none
  refund_policy_content : Option String := none
  terms_of_service_url : Option String := none
  terms_of_service_content : Option String := none
deriving DecidableEq, Repr

/-- models.py `BrandContext`. -/
structure BrandContext where
  brand_name : Option String := none
  brand_description : Option String := none
  about_us_content : Option String := none
  mission_statement : Option String := none
  brand_story : Option String := none
deriving DecidableEq, Repr

/-- models.py `AIValidationResult` (confidence as `ℚ`). -/
structure AIValidationResult where
  validated : Bool := false
  confidence_score : ℚ := 0
  validation_notes : List String := []
deriving DecidableEq, Repr

/-- models.py `CompetitorInfo`. -/
structure CompetitorInfo where
  store_url : String
  brand_name : String
  product_count : Nat
  price_range : String
  social_presence_score : Nat
  key_features : List String := []
  strengths : List String := []
  weaknesses : List String := []
deriving DecidableEq, Repr

/-- models.py `CompetitorAnalysis`. -/
structure CompetitorAnalysis where
  competitors_found : Nat
  competitor_insights : List CompetitorInfo := []
  competitive_analysis : String
  market_positioning : String
deriving DecidableEq, Repr

/-- models.py `BrandInsights` (timestamp omitted). The `ai_validation`
attribute is typed `Option AIValidationResult` because the orchestrator
assigns `ai_result.data` (an Optional) to it; the pydantic default
`AIValidationResult()` is `some {}`. -/
structure BrandInsights where
  website_url : String
  brand_context : BrandContext
  product_catalog : List Product := []
  hero_products : List Product := []
  policies : PolicyInfo
  faqs : List FAQ := []
  social_handles : SocialHandles
  contact_details : ContactDetails
  important_links : ImportantLinks
  total_products_found : Nat := 0
  extraction_success : Bool := true
  errors : List String := []
  competitor_analysis : Option CompetitorAnalysis := none
  ai_validation : Option AIValidationResult := some {}
  detected_currency : Option String := none
  currency_symbol : Option String := none
deriving DecidableEq, Repr

/-! Network handler (services/base.py `NetworkHandler.get`, lines 166-256).
The HTTP session is external: each loop iteration's outcome (a response, a
timeout, a connection error, or another exception) is drawn from an ambient
sequence `attempts : Nat → AttemptOutcome`, indexed by attempt number. -/

/-- The observable parts of a `requests.Response` the handler reads. -/
structure HttpResponse where
  status_code : Nat
  text : String
deriving DecidableEq, Repr

/-- What one `session.get` call can do, as seen by the retry loop. -/
inductive AttemptOutcome where
  | response (r : HttpResponse)
  | timedOut
  | connectionError (msg : String)
  | otherError (msg : String)
deriving DecidableEq, Repr

/-- The retry loop of `NetworkHandler.get` (base.py lines 175-256). `left` is
the number of iterations the `for attempt in range(max_retries + 1)` loop has
still to run (so `attempt < max_retries` iff `1 < left`); the `left = 0` case
is the dead trailing `return` (Max retries exceeded). `raise_for_status` on a
4xx status other than 404/403/429 raises and is caught by the generic
`except`, yielding the Unexpected-error failure. -/
def networkGetFrom (attempts : Nat → AttemptOutcome) : Nat → Nat → OperationResult HttpResponse
  | _, 0 => { status := .failure, error_message := some "Max retries exceeded" }
  | idx, left + 1 =>
    match attempts idx with
    | .response r =>
      if r.status_code == 404 then
        { status := .invalid_input, error_message := some "Website not found (404)" }
      else if r.status_code == 403 then
        { status := .failure
          error_message := some "Access forbidden (403) - website may be blocking requests" }
      else if r.status_code == 429 then
        { status := .rate_limited
          error_message := some "Too many requests (429) - rate limited by server" }
      else if 500 ≤ r.status_code then
        if 0 < left then networkGetFrom attempts (idx + 1) left
        else { status := .failure
               error_message := some ("Server error (" ++ toString r.status_code ++ ")") }
      else if 400 ≤ r.status_code then
        { status := .failure
          error_message := some ("Unexpected error: HTTP status " ++ toString r.status_code) }
      else { status := .success, data := some r }
    | .timedOut =>
      if 0 < left then networkGetFrom attempts (idx + 1) left
      else { status := .timeout
             error_message := some "Request timed out after multiple retries" }
    | .connectionError m =>
      if 0 < left then networkGetFrom attempts (idx + 1) left
      else { status := .failure, error_message := some ("Connection error: " ++ m) }
    | .otherError m =>
      { status := .failure, error_message := some ("Unexpected error: " ++ m) }

/-- services/base.py `NetworkHandler.get`: the rate-limiter gate (its clock
state abstracted to the boolean `canProceed` and the formatted reset time)
followed by the retry loop over `max_retries + 1` attempts. -/
def network_get (canProceed : Bool) (resetTime : String)
    (attempts : Nat → AttemptOutcome) (maxRetries : Nat) : OperationResult HttpResponse :=
  if !canProceed then
    { status := .rate_limited
      error_message := some ("Rate limit exceeded. Try again in " ++ resetTime ++ " seconds") }
  else networkGetFrom attempts 0 (maxRetries + 1)

/-- A 404 response is terminal: whatever retry budget is left, the handler
returns INVALID_INPUT on the spot without consuming further attempts. -/
theorem networkGetFrom_404 (attempts : Nat → AttemptOutcome) (idx left : Nat)
    (r : HttpResponse) (h : attempts idx = .response r) (h404 : r.status_code = 404) :
    networkGetFrom attempts idx (left + 1)
      = { status := .invalid_input, error_message := some "Website not found (404)" } := by
  simp [networkGetFrom, h, h404]

/-- services/base.py `BaseService.initialize` (lines 311-323): wraps the
subclass hook's outcome; note the success branch carries no payload. -/
def initialize_result (internal : Except String Unit) : OperationResult Unit :=
  match internal with
  | .ok _ => { status := .success }
  | .error e => { status := .failure, error_message := some ("Initialization failed: " ++ e) }

/-! Orchestrator (services/orchestrator.py `ShopifyInsightsOrchestrator`).
The injected services and extractors are external collaborators; each is a
function giving the post-retry, exception-converted outcome of its subtask
(the `_..._with_retry` wrappers catch every exception and convert it to a
FAILURE OperationResult, and `asyncio.gather(return_exceptions=True)` does
the same at the fan-out boundary, so a subtask is observationally exactly an
OperationResult-valued function). An absent (`None`) service models the
corresponding `if self.x:` guard being false. Metrics recording does not
influence the returned record (it only fills the metadata map, omitted with
it) and is modelled separately by `record_operation`/`get_summary` below. -/

/-- Python truthiness of an optional string (both `None` and the empty string
are falsy). -/
def pyTruthyStr : Option String → Bool
  | none => false
  | some s => !(s == "")

/-- Python `dict.get` over an insertion-ordered association list. -/
def dictGet (d : List (String × String)) (k : String) : Option String :=
  (d.find? (·.1 == k)).map (·.2)

/-- The `IProductExtractor` surface the orchestrator fans out over. -/
structure ProductExtractorModel where
  extract_products : String → OperationResult (List Product)
  extract_hero_products : String → String → OperationResult (List Product)

/-- Dependency context for one extraction run: the network handler and the
optional services/extractors created in `_initialize_internal`. -/
structure OrchestratorEnv where
  fetch : String → OperationResult HttpResponse
  productExtractor : Option ProductExtractorModel
  brandContextExtractor : Option (String → String → OperationResult BrandContext)
  currencyDetector : Option (String → String → OperationResult (List (String × String)))
  aiValidator : Option (String → BrandInsights → OperationResult AIValidationResult)
  competitorAnalyzer : Option (String → BrandContext → OperationResult CompetitorAnalysis)
  databaseService : Option (BrandInsights → OperationResult Nat)

/-- The name-keyed fan-out result dictionary (orchestrator.py lines 247-293);
an absent key models the corresponding extractor not being configured. -/
structure ExtractionResults where
  products : Option (OperationResult (List Product))
  hero_products : Option (OperationResult (List Product))
  brand_context : Option (OperationResult BrandContext)
  currency : Option (OperationResult (List (String × String)))

/-- orchestrator.py `_fetch_homepage_content` (lines 222-245): on success
rewrap the response text; on failure pass the result through (its payload, if
any, is never read downstream — only status and message are). Reading `.text`
of a missing payload would raise and be caught, yielding the generic failure
of the `except` branch. -/
def fetch_homepage_content (env : OrchestratorEnv) (url : String) : OperationResult String :=
  let result := env.fetch url
  if result.is_success then
    match result.data with
    | some resp => { status := .success, data := some resp.text }
    | none => { status := .failure
                error_message := some "Failed to fetch homepage: missing response data" }
  else
    { status := result.status, error_message := result.error_message
      warnings := result.warnings }

/-- orchestrator.py `_run_parallel_extractions` (lines 247-293): build the
task dictionary (products and hero products are both gated on the product
extractor) and collect each task's outcome. -/
def run_parallel_extractions (env : OrchestratorEnv) (url html : String) : ExtractionResults :=
  { products := env.productExtractor.map (fun pe => pe.extract_products url)
    hero_products := env.productExtractor.map (fun pe => pe.extract_hero_products url html)
    brand_context := env.brandContextExtractor.map (fun f => f url html)
    currency := env.currencyDetector.map (fun f => f url html) }

/-- Truthiness of `result.data` when the payload is a list (empty list is
falsy, absent payload is falsy). -/
def truthyListData {α : Type} : Option (List α) → Bool
  | none => false
  | some l => !l.isEmpty

/-- orchestrator.py `_process_extraction_results` (lines 363-404). For each
facet: a truthy successful payload is written into the record; otherwise the
result's WARNINGS (never its error message) are collected; the collected
strings are assigned to `insights.errors` at the end only when non-empty. -/
def process_extraction_results (res : ExtractionResults) (insights : BrandInsights) :
    BrandInsights :=
  let errors : List String := []
  let (insights, errors) :=
    match res.products with
    | none => (insights, errors)
    | some result =>
      if result.is_success && truthyListData result.data then
        ({ insights with product_catalog := result.data.getD []
                         total_products_found := (result.data.getD []).length }, errors)
      else if !result.warnings.isEmpty then (insights, errors ++ result.warnings)
      else (insights, errors)
  let (insights, errors) :=
    match res.hero_products with
    | none => (insights, errors)
    | some result =>
      if result.is_success && truthyListData result.data then
        ({ insights with hero_products := result.data.getD [] }, errors)
      else if !result.warnings.isEmpty then (insights, errors ++ result.warnings)
      else (insights, errors)
  let (insights, errors) :=
    match res.brand_context with
    | none => (insights, errors)
    | some result =>
      if result.is_success && result.data.isSome then
        ({ insights with brand_context := result.data.getD {} }, errors)
      else if !result.warnings.isEmpty then (insights, errors ++ result.warnings)
      else (insights, errors)
  let (insights, errors) :=
    match res.currency with
    | none => (insights, errors)
    | some result =>
      if result.is_success && truthyListData result.data then
        ({ insights with detected_currency := dictGet (result.data.getD []) "currency"
                         currency_symbol := dictGet (result.data.getD []) "currency_symbol" },
         errors)
      else if !result.warnings.isEmpty then (insights, errors ++ result.warnings)
      else (insights, errors)
  if !errors.isEmpty then { insights with errors := errors } else insights

/-- orchestrator.py `_finalize_insights` (lines 454-464): extraction_success
is recomputed from products/hero products/brand name, and a final
explanatory error is appended when it is false. -/
def finalize_insights (insights : BrandInsights) : BrandInsights :=
  let has_products := !insights.product_catalog.isEmpty || !insights.hero_products.isEmpty
  let has_brand_info := pyTruthyStr insights.brand_context.brand_name
  let insights := { insights with extraction_success := has_products || has_brand_info }
  if !insights.extraction_success then
    { insights with errors := insights.errors
        ++ ["No meaningful data could be extracted from the store"] }
  else insights

/-- orchestrator.py `extract_insights` (lines 126-220): validate, fetch the
homepage once, fan out, merge, optionally enrich (AI validation and
competitor analysis write single fields; a database save only logs a metrics
warning and leaves the record untouched), finalize, and wrap. -/
def extract_insights (env : OrchestratorEnv) (url : String) : OperationResult BrandInsights :=
  let url_validation := validate_url url
  if !url_validation.is_success then
    { status := .invalid_input
      error_message := some ("Invalid URL: " ++ optMsg url_validation.error_message) }
  else
    let normalized_url := (url_validation.data).getD ""
    let insights : BrandInsights :=
      { website_url := normalized_url, brand_context := {}, policies := {}
        social_handles := {}, contact_details := {}, important_links := {} }
    let html_result := fetch_homepage_content env normalized_url
    if !html_result.is_success then
      { status := .failure
        error_message := some ("Failed to fetch homepage: " ++ optMsg html_result.error_message) }
    else
      let html_content := (html_result.data).getD ""
      let extraction_results := run_parallel_extractions env normalized_url html_content
      let insights := process_extraction_results extraction_results insights
      let insights :=
        match env.aiValidator with
        | none => insights
        | some v =>
          let ai_result := v normalized_url insights
          if ai_result.is_success then { insights with ai_validation := ai_result.data }
          else insights
      let insights :=
        match env.competitorAnalyzer with
        | none => insights
        | some c =>
          let competitor_result := c normalized_url insights.brand_context
          if competitor_result.is_success then
            { insights with competitor_analysis := competitor_result.data }
          else insights
      -- database save (lines 189-192): best-effort, only a metrics warning on
      -- failure; the record is unchanged, so the step is a no-op on the state.
      let insights := finalize_insights insights
      { status := .success, data := some insights }

/-- A minimal run context: homepage fetch succeeds, no extractors or optional
services configured. -/
def envOkFetch : OrchestratorEnv :=
  { fetch := fun _ => { status := .success, data := some ⟨200, "ok"⟩ }
    productExtractor := none, brandContextExtractor := none, currencyDetector := none
    aiValidator := none, competitorAnalyzer := none, databaseService := none }

/-- Same context but with a failing homepage fetch. -/
def envFailFetch : OrchestratorEnv :=
  { envOkFetch with
    fetch := fun _ => { status := .failure
                        error_message := some "Connection error: refused" } }

/-- A context whose homepage fetch is a real `network_get` run hitting a 404
on its first attempt, with a (failing-irrelevant) product extractor configured. -/
def env404WithExtractors : OrchestratorEnv :=
  { envOkFetch with
    fetch := fun _ => network_get true "0.0" (fun _ => .response ⟨404, ""⟩) 3
    productExtractor := some
      { extract_products := fun _ => { status := .success, data := some [{ title := "T" }] }
        extract_hero_products := fun _ _ => { status := .success, data := some [{ title := "T" }] } } }

/-- The same 404-fetch context with no extractors configured at all. -/
def env404NoExtractors : OrchestratorEnv :=
  { env404WithExtractors with productExtractor := none }

/-- C5 counterexample: a URL with the disallowed scheme ftp is NOT rejected.
Validation prepends https:// before parsing, so ftp://example.com becomes
https://ftp://example.com (netloc the token ftp:) and validates successfully;
`extract_insights` then proceeds to the homepage fetch — its outcome depends
on the network handler, i.e. a network call is made — instead of returning
InvalidInput. -/
theorem C5_invalid_url_counterexample :
    (validate_url "ftp://example.com").status = .success ∧
    (extract_insights envOkFetch "ftp://example.com").status = .success ∧
    (extract_insights envFailFetch "ftp://example.com").status = .failure := by
  refine ⟨by decide, ?_, ?_⟩ <;> decide

/-- C5 (amended): for every URL the validator rejects — the empty string and
strings with no host, such as a bare scheme; but not disallowed-scheme URLs,
which the https:// prefixing silently legitimises — `extract_insights`
returns InvalidInput, and the result is independent of the whole dependency
context, so no network call (and no other collaborator call) is consulted. -/
theorem C5_invalid_url_amended :
    (validate_url "").status = .invalid_input ∧
    (validate_url "http://").status = .invalid_input ∧
    ∀ (env env' : OrchestratorEnv) (url : String),
      (validate_url url).status = .invalid_input →
      (extract_insights env url).status = .invalid_input ∧
      extract_insights env url = extract_insights env' url := by
  refine ⟨by decide, by decide, ?_⟩
  intro env env' url h
  have hs : (validate_url url).is_success = false := by
    simp [OperationResult.is_success, h]
  constructor
  · simp [extract_insights, hs]
  · simp [extract_insights, hs]

/-- C5 witness: the amended theorem applied to the empty URL under two
different contexts. -/
theorem C5_invalid_url_witness :
    (extract_insights envOkFetch "").status = .invalid_input ∧
    extract_insights envOkFetch "" = extract_insights envFailFetch "" :=
  C5_invalid_url_amended.2.2 envOkFetch envFailFetch "" (by decide)

/-- C4: a non-retryable homepage-fetch failure (the 404 branch of
`NetworkHandler.get` returns immediately, with the same outcome whatever
retry budget is left) makes `extract_insights` return a single top-level
FAILURE, and the result depends only on the fetch function — with the same
fetch, any two contexts (in particular with different field extractors)
produce the identical result, so no field-extraction subtask is invoked. -/
theorem C4_homepage_failure :
    (∀ (attempts : Nat → AttemptOutcome) (idx left : Nat) (r : HttpResponse),
      attempts idx = .response r → r.status_code = 404 →
      networkGetFrom attempts idx (left + 1)
        = { status := .invalid_input, error_message := some "Website not found (404)" }) ∧
    ∀ (env env' : OrchestratorEnv) (url : String),
      (validate_url url).is_success = true →
      (env.fetch ((validate_url url).data.getD "")).is_success = false →
      (extract_insights env url).status = .failure ∧
      (env'.fetch = env.fetch → extract_insights env' url = extract_insights env url) := by
  refine ⟨networkGetFrom_404, ?_⟩
  intro env env' url h hf
  have hval : ((validate_url url).status == ExtractionResult.success) = true := h
  have hstat : ((env.fetch ((validate_url url).data.getD "")).status
      == ExtractionResult.success) = false := hf
  constructor
  · simp [extract_insights, fetch_homepage_content, OperationResult.is_success, hval, hstat]
  · intro hff
    simp [extract_insights, fetch_homepage_content, OperationResult.is_success,
      hval, hstat, hff]

/-- C4 witness: a run whose homepage fetch is a `NetworkHandler.get` hitting
a 404 on its first attempt, under a context with a configured product
extractor; the run fails at the top level and equals the run with no
extractors at all. -/
theorem C4_homepage_failure_witness :
    (networkGetFrom (fun _ => .response ⟨404, ""⟩) 0 (3 + 1)
      = { status := .invalid_input, error_message := some "Website not found (404)" }) ∧
    (extract_insights env404WithExtractors "shop.example.com").status = .failure ∧
    extract_insights env404NoExtractors "shop.example.com"
      = extract_insights env404WithExtractors "shop.example.com" :=
  ⟨C4_homepage_failure.1 (fun _ => .response ⟨404, ""⟩) 0 3 ⟨404, ""⟩ rfl rfl,
   (C4_homepage_failure.2 env404WithExtractors env404NoExtractors "shop.example.com"
      (by decide) (by decide)).1,
   (C4_homepage_failure.2 env404WithExtractors env404NoExtractors "shop.example.com"
      (by decide) (by decide)).2 rfl⟩

theorem if_warnings_append {α : Type} (x : α) (e w : List String) :
    (if !w.isEmpty then (x, e ++ w) else (x, e)) = (x, e ++ w) := by
  cases w <;> simp

/-- When every facet subtask failed, the merge step collects exactly the
facets' warning lists (the error messages are dropped) and leaves every other
field of the record untouched. -/
theorem process_extraction_results_all_fail
    (r1 r2 : OperationResult (List Product)) (r3 : OperationResult BrandContext)
    (r4 : OperationResult (List (String × String))) (insights : BrandInsights)
    (h1 : r1.is_success = false) (h2 : r2.is_success = false)
    (h3 : r3.is_success = false) (h4 : r4.is_success = false)
    (hin : insights.errors = []) :
    process_extraction_results ⟨some r1, some r2, some r3, some r4⟩ insights
      = { insights with
          errors := r1.warnings ++ r2.warnings ++ r3.warnings ++ r4.warnings } := by
  have b1 : (r1.status == ExtractionResult.success) = false := h1
  have b2 : (r2.status == ExtractionResult.success) = false := h2
  have b3 : (r3.status == ExtractionResult.success) = false := h3
  have b4 : (r4.status == ExtractionResult.success) = false := h4
  by_cases e1 : r1.warnings = [] <;> by_cases e2 : r2.warnings = [] <;>
    by_cases e3 : r3.warnings = [] <;> by_cases e4 : r4.warnings = [] <;>
    (cases insights;
     simp_all [process_extraction_results, OperationResult.is_success, List.isEmpty_iff])

/-- A context where the homepage fetch succeeds and all four configured facet
subtasks fail (with error messages and no warnings), with no optional
enrichment services. -/
def envAllFail : OrchestratorEnv :=
  { fetch := fun _ => { status := .success, data := some ⟨200, "<html>"⟩ }
    productExtractor := some
      { extract_products := fun _ =>
          { status := .failure, error_message := some "Product extraction failed: boom" }
        extract_hero_products := fun _ _ =>
          { status := .failure, error_message := some "Hero product extraction failed: boom" } }
    brandContextExtractor := some fun _ _ =>
      { status := .failure, error_message := some "Brand context extraction failed: boom" }
    currencyDetector := some fun _ _ =>
      { status := .failure, error_message := some "Currency detection failed: boom" }
    aiValidator := none, competitorAnalyzer := none, databaseService := none }

/-- C1 counterexample: with a successful homepage fetch and all four facet
subtasks failing (each carrying an error message, none carrying warnings),
the run does return top-level Success with `extraction_success = false`, but
the record's errors list holds ONLY the single final explanatory entry — not
one error string per failed facet: the merge step never copies a failed
facet's `error_message` into the record. -/
theorem C1_all_fail_counterexample :
    envAllFail.productExtractor.map
        (fun pe => (pe.extract_products "https://shop.example.com").is_success) = some false ∧
    envAllFail.productExtractor.map
        (fun pe => (pe.extract_hero_products "https://shop.example.com" "<html>").is_success)
      = some false ∧
    envAllFail.brandContextExtractor.map
        (fun f => (f "https://shop.example.com" "<html>").is_success) = some false ∧
    envAllFail.currencyDetector.map
        (fun f => (f "https://shop.example.com" "<html>").is_success) = some false ∧
    (extract_insights envAllFail "shop.example.com").status = .success ∧
    (extract_insights envAllFail "shop.example.com").data.map (·.extraction_success)
      = some false ∧
    (extract_insights envAllFail "shop.example.com").data.map (·.errors)
      = some ["No meaningful data could be extracted from the store"] := by
  refine ⟨rfl, rfl, rfl, rfl, ?_, ?_, ?_⟩ <;> decide

/-- C1 (amended): if the homepage fetch succeeds and every configured facet
subtask fails, `extract_insights` still returns top-level Success carrying a
record left at empty defaults with `extraction_success = false`; the errors
list consists of the failed facets' warning lists (so it is empty of
per-facet entries when the failures carry only error messages) followed by
the single final "no meaningful data" explanation — not one error string per
failed facet. -/
theorem C1_all_fail_amended
    (env : OrchestratorEnv) (url : String) (pe : ProductExtractorModel)
    (bce : String → String → OperationResult BrandContext)
    (cd : String → String → OperationResult (List (String × String)))
    (resp : HttpResponse)
    (hpe : env.productExtractor = some pe)
    (hbce : env.brandContextExtractor = some bce)
    (hcd : env.currencyDetector = some cd)
    (hai : env.aiValidator = none)
    (hcomp : env.competitorAnalyzer = none)
    (h : (validate_url url).is_success = true)
    (hfs : (env.fetch ((validate_url url).data.getD "")).status = .success)
    (hfd : (env.fetch ((validate_url url).data.getD "")).data = some resp)
    (h1 : (pe.extract_products ((validate_url url).data.getD "")).is_success = false)
    (h2 : (pe.extract_hero_products ((validate_url url).data.getD "") resp.text).is_success
      = false)
    (h3 : (bce ((validate_url url).data.getD "") resp.text).is_success = false)
    (h4 : (cd ((validate_url url).data.getD "") resp.text).is_success = false) :
    (extract_insights env url).status = .success ∧
    (extract_insights env url).data.map (·.product_catalog) = some [] ∧
    (extract_insights env url).data.map (·.hero_products) = some [] ∧
    (extract_insights env url).data.map (·.brand_context) = some {} ∧
    (extract_insights env url).data.map (·.detected_currency) = some none ∧
    (extract_insights env url).data.map (·.currency_symbol) = some none ∧
    (extract_insights env url).data.map (·.total_products_found) = some 0 ∧
    (extract_insights env url).data.map (·.extraction_success) = some false ∧
    (extract_insights env url).data.map (·.errors)
      = some ((pe.extract_products ((validate_url url).data.getD "")).warnings
          ++ (pe.extract_hero_products ((validate_url url).data.getD "") resp.text).warnings
          ++ (bce ((validate_url url).data.getD "") resp.text).warnings
          ++ (cd ((validate_url url).data.getD "") resp.text).warnings
          ++ ["No meaningful data could be extracted from the store"]) := by
  have hval : ((validate_url url).status == ExtractionResult.success) = true := h
  have hfetch : fetch_homepage_content env ((validate_url url).data.getD "")
      = { status := .success, data := some resp.text } := by
    simp [fetch_homepage_content, OperationResult.is_success, hfs, hfd]
  have hrun : run_parallel_extractions env ((validate_url url).data.getD "") resp.text
      = ⟨some (pe.extract_products ((validate_url url).data.getD ""))
        , some (pe.extract_hero_products ((validate_url url).data.getD "") resp.text)
        , some (bce ((validate_url url).data.getD "") resp.text)
        , some (cd ((validate_url url).data.getD "") resp.text)⟩ := by
    simp [run_parallel_extractions, hpe, hbce, hcd]
  have hproc := process_extraction_results_all_fail
    (pe.extract_products ((validate_url url).data.getD ""))
    (pe.extract_hero_products ((validate_url url).data.getD "") resp.text)
    (bce ((validate_url url).data.getD "") resp.text)
    (cd ((validate_url url).data.getD "") resp.text)
    { website_url := (validate_url url).data.getD "", brand_context := {}, policies := {}
      social_handles := {}, contact_details := {}, important_links := {} }
    h1 h2 h3 h4 rfl
  simp only [extract_insights, OperationResult.is_success, hval, Bool.not_true,
    Bool.false_eq_true, if_false, hfetch, hai, hcomp]
  simp [hrun, hproc, finalize_insights, pyTruthyStr]

/-- C1 witness: the amended theorem applied to the all-fail context; with no
facet warnings, the record's errors list is exactly the single final
explanation. -/
theorem C1_all_fail_witness :
    (extract_insights envAllFail "shop.example.com").status = .success ∧
    (extract_insights envAllFail "shop.example.com").data.map (·.product_catalog)
      = some [] := by
  have happ := C1_all_fail_amended envAllFail "shop.example.com"
    { extract_products := fun _ =>
        { status := .failure, error_message := some "Product extraction failed: boom" }
      extract_hero_products := fun _ _ =>
        { status := .failure, error_message := some "Hero product extraction failed: boom" } }
    (fun _ _ => { status := .failure
                  error_message := some "Brand context extraction failed: boom" })
    (fun _ _ => { status := .failure
                  error_message := some "Currency detection failed: boom" })
    ⟨200, "<html>"⟩ rfl rfl rfl rfl rfl (by decide) rfl rfl rfl rfl rfl rfl
  exact ⟨happ.1, happ.2.1⟩

/-- The spec's claimed OperationResult invariant: payload present iff status
is Success or PartialSuccess, and error message present iff status is not
Success. -/
def strictResultContract {α : Type} (r : OperationResult α) : Prop :=
  (r.data.isSome = true ↔ (r.status = .success ∨ r.status = .partial_success)) ∧
  (r.error_message.isSome = true ↔ r.status ≠ .success)

/-- The weaker contract the modelled producers actually obey: payload only on
Success/PartialSuccess (but not necessarily present there), error message
present exactly on non-Success. -/
def resultContract {α : Type} (r : OperationResult α) : Prop :=
  (r.data.isSome = true → (r.status = .success ∨ r.status = .partial_success)) ∧
  (r.error_message.isSome = true ↔ r.status ≠ .success)

theorem resultContract_validate_url (url : String) :
    resultContract (validate_url url) := by
  unfold validate_url
  dsimp only
  repeat' split
  all_goals simp [resultContract]

theorem resultContract_networkGetFrom (attempts : Nat → AttemptOutcome) :
    ∀ (left idx : Nat), resultContract (networkGetFrom attempts idx left) := by
  intro left
  induction left with
  | zero => intro idx; simp [networkGetFrom, resultContract]
  | succ n ih =>
    intro idx
    simp only [networkGetFrom]
    cases hA : attempts idx <;> simp only [hA] <;> repeat' split
    all_goals first | exact ih _ | simp [resultContract]

theorem resultContract_network_get (canProceed : Bool) (resetTime : String)
    (attempts : Nat → AttemptOutcome) (maxRetries : Nat) :
    resultContract (network_get canProceed resetTime attempts maxRetries) := by
  unfold network_get
  split
  · simp [resultContract]
  · exact resultContract_networkGetFrom attempts _ _

theorem resultContract_extract_insights (env : OrchestratorEnv) (url : String) :
    resultContract (extract_insights env url) := by
  cases h1 : (validate_url url).is_success
  · simp [extract_insights, resultContract, h1]
  · cases h2 : (fetch_homepage_content env ((validate_url url).data.getD "")).is_success
    · simp [extract_insights, resultContract, h1, h2]
    · simp [extract_insights, resultContract, h1, h2]

/-- C6 counterexample: the claimed iff-invariant fails on an OperationResult
the code itself produces — `BaseService.initialize` returns a Success result
with no payload, so data present is not equivalent to status ∈
{Success, PartialSuccess}. -/
theorem C6_invariant_counterexample :
    ¬ strictResultContract (initialize_result (Except.ok ())) := by
  simp [strictResultContract, initialize_result]

/-- C6 (amended): the modelled producers (URL validator, network handler,
orchestrator entry point, BaseService.initialize) obey the weaker contract —
a payload only appears with Success/PartialSuccess status and an error
message appears exactly when the status is not Success — but the forward
direction of the payload iff is violated: Success results may carry no data. -/
theorem C6_invariant_amended (url : String) (env : OrchestratorEnv)
    (canProceed : Bool) (resetTime : String) (attempts : Nat → AttemptOutcome)
    (maxRetries : Nat) (internal : Except String Unit) :
    resultContract (validate_url url) ∧
    resultContract (network_get canProceed resetTime attempts maxRetries) ∧
    resultContract (extract_insights env url) ∧
    resultContract (initialize_result internal) := by
  refine ⟨resultContract_validate_url url,
    resultContract_network_get canProceed resetTime attempts maxRetries,
    resultContract_extract_insights env url, ?_⟩
  cases internal <;> simp [resultContract, initialize_result]

/-- C6 witness: the amended contract at a concrete run. -/
theorem C6_invariant_witness :
    resultContract (validate_url "shop.example.com") ∧
    resultContract (network_get true "0.0" (fun _ => .response ⟨200, "ok"⟩) 3) ∧
    resultContract (extract_insights envOkFetch "shop.example.com") ∧
    resultContract (initialize_result (Except.ok ())) :=
  C6_invariant_amended "shop.example.com" envOkFetch true "0.0"
    (fun _ => .response ⟨200, "ok"⟩) 3 (Except.ok ())

/-! ExtractionMetrics (orchestrator.py lines 22-70). The operations map is a
Python dict keyed by operation name: insertion-ordered, assignment replaces
in place. Durations are `ℚ`; the per-entry details map and timestamps are
observability payload with no effect on the summary's counts and are
omitted. -/

/-- One recorded operation: duration and success flag. -/
structure OpEntry where
  duration : ℚ
  success : Bool
deriving DecidableEq, Repr

/-- `ExtractionMetrics.record_operation`: Python dict assignment
`self.operations[operation] = {...}` — replace in place if the key exists,
else append. -/
def record_operation (ops : List (String × OpEntry)) (operation : String)
    (entry : OpEntry) : List (String × OpEntry) :=
  if ops.any (fun p => p.1 == operation) then
    ops.map (fun p => if p.1 == operation then (operation, entry) else p)
  else ops ++ [(operation, entry)]

/-- The summary dictionary built by `ExtractionMetrics.get_summary`
(total wall-clock duration omitted with timestamps; the echoed operations
map is the argument itself). -/
structure MetricsSummary where
  total_operations : Nat
  successful_operations : Nat
  success_rate : ℚ
  error_count : Nat
  warning_count : Nat
deriving DecidableEq, Repr

/-- `ExtractionMetrics.get_summary` (lines 56-70): count operations and
successes, divide (guarded against an empty map), echo error/warning counts. -/
def get_summary (ops : List (String × OpEntry)) (errors warnings : List String) :
    MetricsSummary :=
  let successful_ops := (ops.filter (fun p => p.2.success)).length
  let total_ops := ops.length
  { total_operations := total_ops
    successful_operations := successful_ops
    success_rate := if 0 < total_ops then (successful_ops : ℚ) / (total_ops : ℚ) else 0
    error_count := errors.length
    warning_count := warnings.length }

theorem record_operation_fresh (ops : List (String × OpEntry)) (operation : String)
    (entry : OpEntry) (h : ∀ p ∈ ops, p.1 ≠ operation) :
    record_operation ops operation entry = ops ++ [(operation, entry)] := by
  have : ops.any (fun p => p.1 == operation) = false := by
    simp only [List.any_eq_false]
    intro p hp
    simp [h p hp]
  simp [record_operation, this]

theorem foldl_record_operation_fresh (recs : List (String × OpEntry)) :
    ∀ (ops : List (String × OpEntry)),
    (recs.map Prod.fst).Nodup →
    (∀ k ∈ recs.map Prod.fst, ∀ p ∈ ops, p.1 ≠ k) →
    recs.foldl (fun acc r => record_operation acc r.1 r.2) ops = ops ++ recs := by
  induction recs with
  | nil => intro ops _ _; simp
  | cons r rest ih =>
    intro ops hnd hdisj
    have hfresh : ∀ p ∈ ops, p.1 ≠ r.1 := hdisj r.1 (by simp)
    have hnd' : (rest.map Prod.fst).Nodup := by
      simpa using hnd.of_cons
    have hdisj' : ∀ k ∈ rest.map Prod.fst, ∀ p ∈ ops ++ [(r.1, r.2)], p.1 ≠ k := by
      intro k hk p hp
      rcases List.mem_append.mp hp with hp | hp
      · exact hdisj k (by simp [hk]) p hp
      · simp only [List.mem_singleton] at hp
        subst hp
        intro hcon
        have hr : r.1 ∈ List.map Prod.fst rest := by
          rw [show r.1 = k from hcon]; exact hk
        exact (List.nodup_cons.mp (by simpa using hnd)).1 hr
    calc (r :: rest).foldl (fun acc x => record_operation acc x.1 x.2) ops
        = rest.foldl (fun acc x => record_operation acc x.1 x.2)
            (record_operation ops r.1 r.2) := by simp [List.foldl_cons]
      _ = rest.foldl (fun acc x => record_operation acc x.1 x.2)
            (ops ++ [(r.1, r.2)]) := by rw [record_operation_fresh ops r.1 r.2 hfresh]
      _ = (ops ++ [(r.1, r.2)]) ++ rest := ih (ops ++ [(r.1, r.2)]) hnd' hdisj'
      _ = ops ++ (r :: rest) := by simp

/-- C8: after N subtask completions with pairwise-distinct operation names
(one completion per subtask within a run), the summary's total_operations is
N and success_rate is exactly successful/N as a rational; an empty run yields
rate 0, not a division error. -/
theorem C8_metrics_summary (recs : List (String × OpEntry))
    (hnd : (recs.map Prod.fst).Nodup) :
    (get_summary (recs.foldl (fun acc r => record_operation acc r.1 r.2) []) [] []).total_operations = recs.length ∧
    (get_summary (recs.foldl (fun acc r => record_operation acc r.1 r.2) []) [] []).success_rate
      = ((recs.filter (fun r => r.2.success)).length : ℚ) / (recs.length : ℚ) ∧
    (recs.length = 0 →
      (get_summary (recs.foldl (fun acc r => record_operation acc r.1 r.2) []) [] []).success_rate = 0) := by
  have hfold : recs.foldl (fun acc r => record_operation acc r.1 r.2) [] = recs := by
    simpa using foldl_record_operation_fresh recs [] hnd (by simp)
  rw [hfold]
  refine ⟨rfl, ?_, ?_⟩
  · by_cases h : 0 < recs.length
    · simp [get_summary, h]
    · have h0 : recs.length = 0 := by omega
      have : recs = [] := List.length_eq_zero.mp h0
      subst this
      simp [get_summary]
  · intro h0
    have : recs = [] := List.length_eq_zero.mp h0
    subst this
    simp [get_summary]

/-- C8 witness: three completions (two successes, one failure) give
total_operations = 3 and success_rate 2/3; zero completions give rate 0. -/
theorem C8_metrics_summary_witness :
    (get_summary (([("product_extraction", ⟨1, true⟩), ("brand_context_extraction", ⟨2, true⟩), ("currency_detection", ⟨1, false⟩)] : List (String × OpEntry)).foldl (fun acc r => record_operation acc r.1 r.2) []) [] []).total_operations = 3 ∧
    (get_summary (([("product_extraction", ⟨1, true⟩), ("brand_context_extraction", ⟨2, true⟩), ("currency_detection", ⟨1, false⟩)] : List (String × OpEntry)).foldl (fun acc r => record_operation acc r.1 r.2) []) [] []).success_rate = 2 / 3 ∧
    (get_summary (([] : List (String × OpEntry)).foldl (fun acc r => record_operation acc r.1 r.2) []) [] []).success_rate = 0 := by
  have happ := C8_metrics_summary
    [("product_extraction", ⟨1, true⟩), ("brand_context_extraction", ⟨2, true⟩),
     ("currency_detection", ⟨1, false⟩)] (by decide)
  have happ0 := C8_metrics_summary [] (by decide)
  refine ⟨happ.1, ?_, happ0.2.2 rfl⟩
  rw [happ.2.1]
  norm_num

/-! FAQ deduplication (services/content_scraper.py `get_faqs`, the
dedup-and-cap loop of lines 183-195). The collected `faqs` list (FAQ pages
plus homepage, fetched through the session — external) is the input; the
`seen_questions` set is modelled as a list with membership lookup. -/

/-- The loop body of lines 187-193: skip an already-seen lower-cased
question, otherwise append the entry and mark the question seen; stop once 15
entries are retained (the break check runs every iteration, after the
conditional append). -/
def dedup_faqs_loop : List FAQ → List String → List FAQ → List FAQ
  | [], _, unique => unique
  | f :: rest, seen, unique =>
    let hit := seen.contains (pyToLower f.question)
    let seen' := if hit then seen else pyToLower f.question :: seen
    let unique' := if hit then unique else unique ++ [f]
    if 15 ≤ unique'.length then unique' else dedup_faqs_loop rest seen' unique'

/-- content_scraper.py `get_faqs` lines 183-195 applied to the collected
list. -/
def get_faqs_dedup (faqs : List FAQ) : List FAQ := dedup_faqs_loop faqs [] []

/-- The same loop without the 15-entry cap (classic first-occurrence
dedup), used to characterise the capped loop on short inputs. -/
def dedup_plain : List FAQ → List String → List FAQ → List FAQ
  | [], _, unique => unique
  | f :: rest, seen, unique =>
    if seen.contains (pyToLower f.question) then dedup_plain rest seen unique
    else dedup_plain rest (pyToLower f.question :: seen) (unique ++ [f])

/-- Number of entries of `l` whose lower-cased question is `q`. -/
def countQ (l : List FAQ) (q : String) : Nat :=
  (l.filter (fun f => pyToLower f.question == q)).length

theorem dedup_faqs_loop_cons_mem (f : FAQ) (rest : List FAQ) (seen : List String)
    (unique : List FAQ) (h : pyToLower f.question ∈ seen) :
    dedup_faqs_loop (f :: rest) seen unique
      = if 15 ≤ unique.length then unique else dedup_faqs_loop rest seen unique := by
  have hb : seen.contains (pyToLower f.question) = true := by
    simp [List.contains, List.elem_iff, h]
  simp [dedup_faqs_loop, hb, h]

theorem dedup_faqs_loop_cons_not_mem (f : FAQ) (rest : List FAQ) (seen : List String)
    (unique : List FAQ) (h : pyToLower f.question ∉ seen) :
    dedup_faqs_loop (f :: rest) seen unique
      = if 15 ≤ (unique ++ [f]).length then unique ++ [f]
        else dedup_faqs_loop rest (pyToLower f.question :: seen) (unique ++ [f]) := by
  have hb : seen.contains (pyToLower f.question) = false := by
    simp [List.contains, List.elem_iff, h]
  simp [dedup_faqs_loop, hb, h]

theorem dedup_plain_cons_mem (f : FAQ) (rest : List FAQ) (seen : List String)
    (unique : List FAQ) (h : pyToLower f.question ∈ seen) :
    dedup_plain (f :: rest) seen unique = dedup_plain rest seen unique := by
  have hb : seen.contains (pyToLower f.question) = true := by
    simp [List.contains, List.elem_iff, h]
  simp [dedup_plain, hb, h]

theorem dedup_plain_cons_not_mem (f : FAQ) (rest : List FAQ) (seen : List String)
    (unique : List FAQ) (h : pyToLower f.question ∉ seen) :
    dedup_plain (f :: rest) seen unique
      = dedup_plain rest (pyToLower f.question :: seen) (unique ++ [f]) := by
  have hb : seen.contains (pyToLower f.question) = false := by
    simp [List.contains, List.elem_iff, h]
  simp [dedup_plain, hb, h]

theorem dedup_faqs_loop_length :
    ∀ (faqs : List FAQ) (seen : List String) (unique : List FAQ),
    unique.length ≤ 14 → (dedup_faqs_loop faqs seen unique).length ≤ 15 := by
  intro faqs
  induction faqs with
  | nil => intro seen unique h; simp only [dedup_faqs_loop]; omega
  | cons f rest ih =>
    intro seen unique h
    by_cases hmem : pyToLower f.question ∈ seen
    · rw [dedup_faqs_loop_cons_mem f rest seen unique hmem]
      by_cases hlen : 15 ≤ unique.length
      · omega
      · rw [if_neg hlen]; exact ih seen unique h
    · rw [dedup_faqs_loop_cons_not_mem f rest seen unique hmem]
      by_cases hlen : 15 ≤ (unique ++ [f]).length
      · rw [if_pos hlen]; simp; omega
      · rw [if_neg hlen]
        refine ih _ _ ?_
        simp at hlen ⊢
        omega

theorem dedup_faqs_loop_pairwise :
    ∀ (faqs : List FAQ) (seen : List String) (unique : List FAQ),
    (∀ f ∈ unique, pyToLower f.question ∈ seen) →
    unique.Pairwise (fun a b => pyToLower a.question ≠ pyToLower b.question) →
    (dedup_faqs_loop faqs seen unique).Pairwise
      (fun a b => pyToLower a.question ≠ pyToLower b.question) := by
  intro faqs
  induction faqs with
  | nil => intro seen unique _ hp; simpa [dedup_faqs_loop] using hp
  | cons f rest ih =>
    intro seen unique hseen hp
    by_cases hmem : pyToLower f.question ∈ seen
    · rw [dedup_faqs_loop_cons_mem f rest seen unique hmem]
      by_cases hlen : 15 ≤ unique.length
      · rw [if_pos hlen]; exact hp
      · rw [if_neg hlen]; exact ih seen unique hseen hp
    · rw [dedup_faqs_loop_cons_not_mem f rest seen unique hmem]
      have hone : ∀ a ∈ unique, pyToLower a.question ≠ pyToLower f.question := by
        intro a ha heq
        exact hmem (heq ▸ hseen a ha)
      have hp' : (unique ++ [f]).Pairwise
          (fun a b => pyToLower a.question ≠ pyToLower b.question) := by
        rw [List.pairwise_append]
        refine ⟨hp, List.pairwise_singleton _ _, ?_⟩
        intro a ha b hb
        simp only [List.mem_singleton] at hb
        subst hb
        exact hone a ha
      by_cases hlen : 15 ≤ (unique ++ [f]).length
      · rw [if_pos hlen]; exact hp'
      · rw [if_neg hlen]
        refine ih _ _ ?_ hp'
        intro g hg
        rcases List.mem_append.mp hg with hg | hg
        · exact List.mem_cons_of_mem _ (hseen g hg)
        · simp only [List.mem_singleton] at hg
          subst hg
          exact List.mem_cons_self _ _

theorem dedup_faqs_loop_eq_plain :
    ∀ (faqs : List FAQ) (seen : List String) (unique : List FAQ),
    faqs.length + unique.length ≤ 15 →
    dedup_faqs_loop faqs seen unique = dedup_plain faqs seen unique := by
  intro faqs
  induction faqs with
  | nil => intro seen unique _; rfl
  | cons f rest ih =>
    intro seen unique hlen
    by_cases hmem : pyToLower f.question ∈ seen
    · rw [dedup_faqs_loop_cons_mem f rest seen unique hmem,
        dedup_plain_cons_mem f rest seen unique hmem]
      have hle : ¬ 15 ≤ unique.length := by simp at hlen; omega
      rw [if_neg hle]
      exact ih seen unique (by simp at hlen ⊢; omega)
    · rw [dedup_faqs_loop_cons_not_mem f rest seen unique hmem,
        dedup_plain_cons_not_mem f rest seen unique hmem]
      by_cases hcap : 15 ≤ (unique ++ [f]).length
      · have hrest : rest = [] := by
          simp at hcap hlen
          cases rest with
          | nil => rfl
          | cons a b => simp at hlen; omega
        subst hrest
        rw [if_pos hcap]
        rfl
      · rw [if_neg hcap]
        exact ih _ _ (by simp at hlen hcap ⊢; omega)

theorem countQ_append (l₁ l₂ : List FAQ) (q : String) :
    countQ (l₁ ++ l₂) q = countQ l₁ q + countQ l₂ q := by
  simp [countQ]

theorem countQ_dedup_plain_of_seen :
    ∀ (faqs : List FAQ) (seen : List String) (unique : List FAQ) (q : String),
    q ∈ seen → countQ (dedup_plain faqs seen unique) q = countQ unique q := by
  intro faqs
  induction faqs with
  | nil => intro seen unique q _; rfl
  | cons f rest ih =>
    intro seen unique q hq
    by_cases hmem : pyToLower f.question ∈ seen
    · rw [dedup_plain_cons_mem f rest seen unique hmem]
      exact ih seen unique q hq
    · rw [dedup_plain_cons_not_mem f rest seen unique hmem]
      have hne : (pyToLower f.question == q) = false := by
        simp only [beq_eq_false_iff_ne, ne_eq]
        intro heq
        exact hmem (heq ▸ hq)
      rw [ih _ _ q (List.mem_cons_of_mem _ hq), countQ_append]
      simp [countQ, hne]

theorem countQ_dedup_plain_first :
    ∀ (faqs : List FAQ) (seen : List String) (unique : List FAQ) (q : String),
    q ∉ seen → countQ unique q = 0 →
    q ∈ faqs.map (fun f => pyToLower f.question) →
    countQ (dedup_plain faqs seen unique) q = 1 := by
  intro faqs
  induction faqs with
  | nil => intro seen unique q _ _ hmem; simp at hmem
  | cons f rest ih =>
    intro seen unique q hq h0 hmem
    by_cases heq : pyToLower f.question = q
    · rw [dedup_plain_cons_not_mem f rest seen unique (heq ▸ hq)]
      have hb : (pyToLower f.question == q) = true := beq_iff_eq.mpr heq
      rw [countQ_dedup_plain_of_seen rest _ _ q (by simp [heq]), countQ_append, h0]
      simp [countQ, hb]
    · have hmem' : q ∈ rest.map (fun g => pyToLower g.question) := by
        rcases List.mem_map.mp hmem with ⟨g, hg, hgq⟩
        rcases List.mem_cons.mp hg with hgf | hgr
        · exact absurd (hgf ▸ hgq) heq
        · exact List.mem_map.mpr ⟨g, hgr, hgq⟩
      by_cases hmem2 : pyToLower f.question ∈ seen
      · rw [dedup_plain_cons_mem f rest seen unique hmem2]
        exact ih seen unique q hq h0 hmem'
      · rw [dedup_plain_cons_not_mem f rest seen unique hmem2]
        refine ih _ _ q ?_ ?_ hmem'
        · intro hc
          rcases List.mem_cons.mp hc with hc | hc
          · exact heq hc.symm
          · exact hq hc
        · have hb : (pyToLower f.question == q) = false := beq_eq_false_iff_ne.mpr heq
          rw [countQ_append, h0]
          simp [countQ, hb]

theorem countQ_le_one_of_pairwise (l : List FAQ) (q : String)
    (hp : l.Pairwise (fun a b => pyToLower a.question ≠ pyToLower b.question)) :
    countQ l q ≤ 1 := by
  induction l with
  | nil => simp [countQ]
  | cons x t ih =>
    have hx := (List.pairwise_cons.mp hp).1
    have ht := (List.pairwise_cons.mp hp).2
    by_cases heq : pyToLower x.question = q
    · have h0 : countQ t q = 0 := by
        simp only [countQ, List.length_eq_zero, List.filter_eq_nil_iff]
        intro a ha hcon
        exact hx a ha (heq.trans (beq_iff_eq.mp hcon).symm)
      have hb : (pyToLower x.question == q) = true := beq_iff_eq.mpr heq
      have hsplit : countQ (x :: t) q = countQ t q + 1 := by
        simp [countQ, List.filter_cons, hb]
      omega
    · have hb : (pyToLower x.question == q) = false := beq_eq_false_iff_ne.mpr heq
      have hsplit : countQ (x :: t) q = countQ t q := by
        simp [countQ, List.filter_cons, hb]
      rw [hsplit]
      exact ih ht

/-- A collected FAQ list with 15 distinct questions followed by a pair of
case-duplicate questions. -/
def cxFaqs : List FAQ :=
  [⟨"a1", "x"⟩, ⟨"a2", "x"⟩, ⟨"a3", "x"⟩, ⟨"a4", "x"⟩, ⟨"a5", "x"⟩,
   ⟨"a6", "x"⟩, ⟨"a7", "x"⟩, ⟨"a8", "x"⟩, ⟨"a9", "x"⟩, ⟨"a10", "x"⟩,
   ⟨"a11", "x"⟩, ⟨"a12", "x"⟩, ⟨"a13", "x"⟩, ⟨"a14", "x"⟩, ⟨"a15", "x"⟩,
   ⟨"Q", "x"⟩, ⟨"q", "x"⟩]

/-- C7 counterexample: the claim's "exactly one entry for that question"
fails when the 15-entry cap is reached first. In a collected list whose first
15 entries already have distinct questions, the later pair Q / q (identical
up to case) is dropped entirely: the merged list contains ZERO entries for
that question, not exactly one. -/
theorem C7_faq_dedup_counterexample :
    (⟨"Q", "x"⟩ : FAQ) ∈ cxFaqs ∧ (⟨"q", "x"⟩ : FAQ) ∈ cxFaqs ∧
    pyToLower "Q" = pyToLower "q" ∧
    countQ (get_faqs_dedup cxFaqs) (pyToLower "q") = 0 := by decide

/-- C7 (amended): the merged FAQ list never exceeds 15 entries and contains
AT MOST one entry per lower-cased question; it contains exactly one entry
for a question present in the collected list whenever the collected list has
at most 15 entries (so the cap cannot drop the question's first occurrence).
Two entries whose questions differ only in case are therefore never both
kept, but with more than 15 collected entries a duplicated question may be
dropped altogether. -/
theorem C7_faq_dedup_amended (faqs : List FAQ) (q : String) :
    (get_faqs_dedup faqs).length ≤ 15 ∧
    countQ (get_faqs_dedup faqs) q ≤ 1 ∧
    (faqs.length ≤ 15 → q ∈ faqs.map (fun f => pyToLower f.question) →
      countQ (get_faqs_dedup faqs) q = 1) := by
  refine ⟨dedup_faqs_loop_length faqs [] [] (by simp),
    countQ_le_one_of_pairwise _ q
      (dedup_faqs_loop_pairwise faqs [] [] (by simp) List.Pairwise.nil), ?_⟩
  intro hlen hmem
  rw [get_faqs_dedup, dedup_faqs_loop_eq_plain faqs [] [] (by simpa using hlen)]
  exact countQ_dedup_plain_first faqs [] [] q (by simp) (by simp [countQ]) hmem

/-- C7 witness: a two-entry collected list with case-duplicate questions
keeps exactly one entry, within the cap. -/
theorem C7_faq_dedup_witness :
    countQ (get_faqs_dedup [⟨"Q", "a"⟩, ⟨"q", "b"⟩]) "q" = 1 ∧
    (get_faqs_dedup [⟨"Q", "a"⟩, ⟨"q", "b"⟩]).length ≤ 15 :=
  ⟨(C7_faq_dedup_amended [⟨"Q", "a"⟩, ⟨"q", "b"⟩] "q").2.2 (by decide) (by decide),
   (C7_faq_dedup_amended [⟨"Q", "a"⟩, ⟨"q", "b"⟩] "q").1⟩

/-! AI validation (services/ai_validator.py `validate_brand_context`, lines
47-98). The Gemini client is external: `response_text` models the parsed
`ContentValidation` of a non-empty response (`none` covers an unavailable
client response text, and a parse error lands in the `except` returning the
original); `improved_context` models the outcome of the HTML re-extraction
`_extract_brand_from_html` (an Optional). Confidence is `ℚ` with the 0.7
threshold as 7/10. -/

/-- ai_validator.py `ContentValidation` (confidence as `ℚ`). -/
structure ContentValidation where
  is_valid : Bool
  confidence : ℚ
  issues : List String := []
  suggestions : List String := []
deriving DecidableEq, Repr

/-- ai_validator.py `validate_brand_context`: keep the extracted context
unless the validator reports invalidity OR low confidence, in which case a
successful HTML re-extraction replaces it. -/
def validate_brand_context (ai_available : Bool) (response_text : Option ContentValidation)
    (improved_context : Option BrandContext) (brand_context : BrandContext) : BrandContext :=
  if !ai_available then brand_context
  else
    match response_text with
    | none => brand_context
    | some validation_result =>
      if !validation_result.is_valid || validation_result.confidence < 7/10 then
        match improved_context with
        | some improved => improved
        | none => brand_context
      else brand_context

/-- The original and "improved" contexts used in the C2 scenario. -/
def cxCtxOrig : BrandContext := { brand_name := some "Old Brand" }

/-- The replacement context the HTML re-extraction produces in the C2
scenario. -/
def cxCtxBetter : BrandContext := { brand_name := some "Better Brand" }

/-- C2 counterexample: a validator response with confidence 0.9 (≥ 0.7) but
`is_valid = false` still triggers replacement — the condition is a
disjunction (`not is_valid or confidence < 0.7`), so high confidence alone
does not protect the merged value. -/
theorem C2_ai_threshold_counterexample :
    (7 : ℚ)/10 ≤ 9/10 ∧
    validate_brand_context true (some { is_valid := false, confidence := 9/10 })
        (some cxCtxBetter) cxCtxOrig = cxCtxBetter ∧
    cxCtxBetter ≠ cxCtxOrig := by
  refine ⟨by norm_num, ?_, by decide⟩
  have hlt : ((9 : ℚ)/10 < 7/10) = False := by norm_num
  simp [validate_brand_context, hlt]

/-- C2 (amended): the AI validation step leaves the merged brand context
unchanged whenever the validator reports validity AND confidence ≥ 0.7; it
replaces the merged value only when the validator reports invalidity or
confidence below the threshold and the HTML re-extraction produced a value
(which then is the result). -/
theorem C2_ai_threshold_amended (ai_available : Bool) (resp : Option ContentValidation)
    (improved : Option BrandContext) (ctx : BrandContext) :
    (∀ v, resp = some v → v.is_valid = true → 7/10 ≤ v.confidence →
      validate_brand_context ai_available resp improved ctx = ctx) ∧
    (validate_brand_context ai_available resp improved ctx ≠ ctx →
      ∃ v, resp = some v ∧ (v.is_valid = false ∨ v.confidence < 7/10) ∧
        improved = some (validate_brand_context ai_available resp improved ctx)) := by
  constructor
  · intro v hv hvalid hconf
    subst hv
    have hlt : (v.confidence < 7/10) = False := by
      simp only [eq_iff_iff, iff_false, not_lt]
      exact hconf
    cases ai_available <;> simp [validate_brand_context, hvalid, hlt]
  · intro hne
    cases ai_available with
    | false => exact (hne (by simp [validate_brand_context])).elim
    | true =>
      cases resp with
      | none => exact (hne (by simp [validate_brand_context])).elim
      | some v =>
        by_cases hcond : (!v.is_valid || decide (v.confidence < 7/10)) = true
        · cases improved with
          | none => exact (hne (by simp [validate_brand_context, hcond])).elim
          | some i =>
            refine ⟨v, rfl, ?_, ?_⟩
            · rcases Bool.or_eq_true_iff.mp hcond with hc | hc
              · exact Or.inl (by simpa using hc)
              · exact Or.inr (by simpa using hc)
            · simp [validate_brand_context, hcond]
        · exact (hne (by simp [validate_brand_context, hcond])).elim

/-- C2 witness: the amended theorem at concrete inputs — a valid response
with confidence 0.9 leaves the context unchanged, and a replaced context
implies an invalid-or-low-confidence response with an available improvement. -/
theorem C2_ai_threshold_witness :
    validate_brand_context true (some { is_valid := true, confidence := 9/10 })
        (some cxCtxBetter) cxCtxOrig = cxCtxOrig ∧
    ∃ v, (some { is_valid := false, confidence := 9/10 } : Option ContentValidation)
          = some v ∧
        (v.is_valid = false ∨ v.confidence < 7/10) ∧
        (some cxCtxBetter : Option BrandContext)
          = some (validate_brand_context true
              (some { is_valid := false, confidence := 9/10 })
              (some cxCtxBetter) cxCtxOrig) :=
  ⟨(C2_ai_threshold_amended true (some { is_valid := true, confidence := 9/10 })
      (some cxCtxBetter) cxCtxOrig).1 _ rfl rfl (by norm_num),
   (C2_ai_threshold_amended true (some { is_valid := false, confidence := 9/10 })
      (some cxCtxBetter) cxCtxOrig).2 (by
        have hlt : ((9 : ℚ)/10 < 7/10) = False := by norm_num
        simp [validate_brand_context, hlt, cxCtxBetter, cxCtxOrig])⟩

/-! Currency detection (services/currency_service.py `CurrencyService`).
Python dicts iterated with `.items()` become insertion-ordered association
lists; BeautifulSoup queries are library calls, so the HTML is modelled
pre-parsed: the raw text plus the query results the service reads (meta
currency tag content, address/footer/contact section texts, price-element
texts). The float price-conversion tail of
`detect_and_convert_product_prices` is out of the embedding's scope; only
its currency resolution (lines 252-266) is embedded. -/

/-- currency_service.py `self.currency_symbols` (code → symbol, insertion
order). -/
def currency_symbols : List (String × String) :=
  [("USD", "$"), ("INR", "₹"), ("EUR", "€"), ("GBP", "£"), ("JPY", "¥"),
   ("RUB", "₽"), ("CAD", "C$"), ("AUD", "A$"), ("SEK", "kr"), ("PLN", "zł"),
   ("BRL", "R$"), ("KRW", "₩")]

/-- A product-feed variant as read by the service: `str(variant.get('price',
''))` and `str(variant.get('compare_at_price', ''))`. -/
structure VariantJson where
  price : String
  compare_at_price : String
deriving DecidableEq, Repr

/-- A product-feed entry as read by the service. -/
structure ProductJson where
  variants : List VariantJson
deriving DecidableEq, Repr

/-- The inner loop of `detect_currency_from_products` lines 55-57. NOTE the
source binds the dict KEY (the code) as `symbol` and the VALUE (the symbol)
as `code` and returns `code, symbol` — so a hit on the code text inside the
price string returns the (symbol-character, code-string) pair, swapped
relative to the function's docstring. -/
def findCurrencyInVariant (v : VariantJson) : Option (String × String) :=
  currency_symbols.findSome? (fun p =>
    if pyIn p.1 v.price || pyIn p.1 v.compare_at_price then some (p.2, p.1) else none)

/-- The variant scan of lines 50-57: variants with a falsy (empty) price
string are skipped. -/
def detectFromVariants : List VariantJson → Option (String × String)
  | [] => none
  | v :: rest =>
    if v.price ≠ "" then
      match findCurrencyInVariant v with
      | some r => some r
      | none => detectFromVariants rest
    else detectFromVariants rest

/-- currency_service.py `detect_currency_from_products` (lines 43-59): scan
the first five products' variants, defaulting to USD/$. -/
def detect_currency_from_products (products_data : List ProductJson) : String × String :=
  if products_data.isEmpty then ("USD", "$")
  else
    match detectFromVariants ((products_data.take 5).flatMap (·.variants)) with
    | some r => r
    | none => ("USD", "$")

/-- The parts of the parsed homepage HTML the currency service reads. -/
structure Html where
  raw : String
  metaCurrency : Option String
  addressSections : List String
  priceElementTexts : List String

/-- Python `' '.join(...)`. -/
def pyJoinSpace : List String → String
  | [] => ""
  | [s] => s
  | s :: rest => s ++ " " ++ pyJoinSpace rest

/-- currency_service.py `address_patterns` of
`_detect_currency_from_address` (insertion order). -/
def address_patterns : List (String × String) :=
  [("india", "INR"), ("mumbai", "INR"), ("delhi", "INR"), ("bangalore", "INR"),
   ("chennai", "INR"), ("hyderabad", "INR"), ("pune", "INR"), ("kolkata", "INR"),
   ("gurgaon", "INR"), ("noida", "INR"), ("ahmedabad", "INR"), ("jaipur", "INR"),
   ("united kingdom", "GBP"), ("uk", "GBP"), ("london", "GBP"),
   ("canada", "CAD"), ("toronto", "CAD"), ("vancouver", "CAD"),
   ("australia", "AUD"), ("sydney", "AUD"), ("melbourne", "AUD"),
   ("japan", "JPY"), ("tokyo", "JPY"), ("osaka", "JPY")]

/-- currency_service.py `_detect_currency_from_address` (lines 154-186):
first matching location keyword in the joined lower-cased address text wins,
else USD. -/
def detect_currency_from_address (html : Html) : String :=
  let address_text := pyJoinSpace (html.addressSections.map pyToLower)
  match address_patterns.findSome?
      (fun p => if pyIn p.1 address_text then some p.2 else none) with
  | some c => c
  | none => "USD"

/-- currency_service.py `_get_symbol_for_code` (lines 188-190). -/
def get_symbol_for_code (currency_code : String) : String :=
  match (currency_symbols.find? (fun p => p.1 == currency_code)).map (·.2) with
  | some s => s
  | none => currency_code

/-- currency_service.py `domain_mappings` of `_detect_currency_by_domain`
(insertion order): suffix → (code, symbol). -/
def domain_mappings : List (String × String × String) :=
  [(".in", "INR", "₹"), (".co.in", "INR", "₹"), (".uk", "GBP", "£"),
   (".co.uk", "GBP", "£"), (".de", "EUR", "€"), (".fr", "EUR", "€"),
   (".ca", "CAD", "C$"), (".au", "AUD", "A$"), (".com.au", "AUD", "A$"),
   (".jp", "JPY", "¥"), (".kr", "KRW", "₩"), (".br", "BRL", "R$"),
   (".ru", "RUB", "₽")]

/-- currency_service.py `_detect_currency_by_domain` (lines 121-152): Indian
indicators first, then the first matching domain suffix (substring test, as
in the source). -/
def detect_currency_by_domain (url : String) : Option (String × String) :=
  let url_lower := pyToLower url
  if pyIn ".in" url_lower || pyIn "india" url_lower then some ("INR", "₹")
  else domain_mappings.findSome?
    (fun p => if pyIn p.1 url_lower then some (p.2.1, p.2.2) else none)

/-- currency_service.py `currency_patterns` of step 4 of
`detect_currency_from_html` (INR priority, USD last). -/
def currency_patterns : List (String × String × List String) :=
  [("INR", "₹", ["inr", "₹", "rupee", "rs.", "rs ", "indian rupee", "&#8377;", "rupees"]),
   ("GBP", "£", ["gbp", "£", "pound", "british pound", "&#163;"]),
   ("EUR", "€", ["eur", "€", "euro", "&#8364;"]),
   ("CAD", "C$", ["cad", "canadian dollar", "ca$", "c$"]),
   ("AUD", "A$", ["aud", "australian dollar", "au$", "a$"]),
   ("USD", "$", ["usd", "$", "dollar", "us dollar"])]

/-- currency_service.py `detect_currency_from_html` (lines 61-119): the
cascade — domain, address text, meta tag, text patterns, price elements,
Indian-looking URL, USD fallback. -/
def detect_currency_from_html (html : Html) (url : String) : String × String :=
  match detect_currency_by_domain url with
  | some domain_currency => domain_currency
  | none =>
    let address_currency := detect_currency_from_address html
    if address_currency ≠ "USD" then
      (address_currency, get_symbol_for_code address_currency)
    else
      let metaStep : Option (String × String) :=
        match html.metaCurrency with
        | none => none
        | some content =>
          if content ≠ "" then
            let currency_code := pyToUpper content
            if (currency_symbols.find? (fun p => p.1 == currency_code)).isSome then
              some (currency_code, get_symbol_for_code currency_code)
            else none
          else none
      match metaStep with
      | some r => r
      | none =>
        let text_content := pyToLower html.raw
        match currency_patterns.findSome? (fun p =>
            if p.2.2.any (fun pat => pyIn pat text_content) then some (p.1, p.2.1)
            else none) with
        | some r => r
        | none =>
          match (html.priceElementTexts.take 10).findSome? (fun text =>
              currency_symbols.findSome?
                (fun p => if pyIn p.2 text then some p else none)) with
          | some r => r
          | none =>
            if [".in", "india", "mumbai", "delhi"].any
                (fun ind => pyIn ind (pyToLower url)) then ("INR", "₹")
            else ("USD", "$")

/-- The currency-resolution head of currency_service.py
`detect_and_convert_product_prices` (lines 252-266): HTML/domain detection
first; product-feed detection consulted only when that yields the USD/$
default; final INR override for Indian-looking URLs still at USD. -/
def detect_and_convert_currency (products_data : List ProductJson) (html : Html)
    (url : String) : String × String :=
  let d := detect_currency_from_html html url
  let d :=
    if d.1 == "USD" && d.2 == "$" then
      let p := detect_currency_from_products products_data
      if p.1 ≠ "USD" then p else d
    else d
  if d.1 == "USD" && (pyIn ".in" (pyToLower url) || pyIn "india" (pyToLower url)) then
    ("INR", "₹")
  else d

theorem detect_currency_by_domain_ne_USD (url : String) (c s : String)
    (h : detect_currency_by_domain url = some (c, s)) : c ≠ "USD" := by
  unfold detect_currency_by_domain at h
  dsimp only at h
  split at h
  · simp only [Option.some.injEq, Prod.mk.injEq] at h
    rw [← h.1]
    decide
  · obtain ⟨p, hp, hfp⟩ := List.exists_of_findSome?_eq_some h
    have hval : ∀ q ∈ domain_mappings, q.2.1 ≠ "USD" := by decide
    split at hfp
    · simp only [Option.some.injEq, Prod.mk.injEq] at hfp
      rw [← hfp.1]
      exact hval p hp
    · exact absurd hfp (by simp)

/-- C3: domain-based currency detection takes precedence — whenever the URL's
domain maps to a currency X, the resolved detected currency of
`detect_and_convert_product_prices` is X regardless of the product JSON's
price strings; and the product-price detection is consulted only when the
HTML/domain cascade yields the USD/$ default (otherwise the result is
independent of the products). -/
theorem C3_currency_precedence (url : String) (html : Html)
    (products products' : List ProductJson) (X sym : String) :
    (detect_currency_by_domain url = some (X, sym) →
      detect_and_convert_currency products html url = (X, sym)) ∧
    (detect_currency_from_html html url ≠ ("USD", "$") →
      detect_and_convert_currency products html url
        = detect_and_convert_currency products' html url) := by
  constructor
  · intro h
    have hhtml : detect_currency_from_html html url = (X, sym) := by
      simp [detect_currency_from_html, h]
    have hX : X ≠ "USD" := detect_currency_by_domain_ne_USD url X sym h
    have hbX : (X == "USD") = false := beq_eq_false_iff_ne.mpr hX
    simp [detect_and_convert_currency, hhtml, hbX]
  · intro hne
    have hcond : ((detect_currency_from_html html url).1 == "USD"
        && (detect_currency_from_html html url).2 == "$") = false := by
      by_contra hc
      rw [Bool.not_eq_false, Bool.and_eq_true, beq_iff_eq, beq_iff_eq] at hc
      exact hne (Prod.ext hc.1 hc.2)
    simp [detect_and_convert_currency, hcond]

/-- An HTML context whose text mentions rupees; irrelevant once the domain
matches. -/
def htmlRupees : Html :=
  { raw := "<html>price ₹ 2,999 rupees</html>", metaCurrency := none
    addressSections := [], priceElementTexts := [] }

/-- A product feed whose price strings carry the INR code. -/
def productsINR : List ProductJson :=
  [{ variants := [{ price := "2999 INR", compare_at_price := "" }] }]

/-- C3 witness: two conflicting domain/price pairs — a .uk store with
INR-tagged product prices resolves to GBP, and a .de store with the same feed
resolves to EUR; and with a non-default HTML detection the products are not
consulted. -/
theorem C3_currency_precedence_witness :
    detect_and_convert_currency productsINR htmlRupees "https://store.co.uk"
      = ("GBP", "£") ∧
    detect_and_convert_currency productsINR htmlRupees "https://shop.de"
      = ("EUR", "€") ∧
    detect_and_convert_currency productsINR htmlRupees "https://store.co.uk"
      = detect_and_convert_currency [] htmlRupees "https://store.co.uk" :=
  ⟨(C3_currency_precedence "https://store.co.uk" htmlRupees productsINR [] "GBP" "£").1
      (by decide),
   (C3_currency_precedence "https://shop.de" htmlRupees productsINR [] "EUR" "€").1
      (by decide),
   (C3_currency_precedence "https://store.co.uk" htmlRupees productsINR [] "GBP" "£").2
      (by decide)⟩

/-! Legacy pipeline (services/scraper.py `ShopifyScraperService
.extract_all_insights`, lines 34-116, behind the public /extract-insights
endpoint in main.py). Each `_extract_*` helper catches its own exceptions
and appends an error string, so a helper is observationally the outcome of
its scraper/validator calls: `Except.ok` carries the value written into the
record, `Except.error` the exception text. The homepage check raises
ValueError on 404 and `raise_for_status` on other 4xx/5xx, both propagating
out (`except ... raise`). `_normalize_url` has the same body as
`normalize_url` above. -/

/-- Outcomes of the external scraper/validator calls one legacy run makes. -/
structure LegacyEnv where
  fetchStatus : Nat
  catalog : Except String (List Product × String × String)
  hero : Except String (List Product)
  brandContext : Except String BrandContext
  policies : Except String PolicyInfo
  faqs : Except String (List FAQ)
  socials : Except String SocialHandles
  contacts : Except String ContactDetails
  links : Except String ImportantLinks
  aiValidation : Except String AIValidationResult
  competitor : Except String CompetitorAnalysis
  dbSave : Except String (Option Nat)

/-- scraper.py `_extract_products` (lines 128-145): catalog plus currency
(written only when truthy), then hero products; one try block covers both, so
a hero failure keeps the catalog writes. -/
def legacy_extract_products (env : LegacyEnv) (i : BrandInsights) : BrandInsights :=
  match env.catalog with
  | .error e => { i with errors := i.errors ++ ["Product extraction error: " ++ e] }
  | .ok (products, currency, currency_symbol) =>
    let i := { i with product_catalog := products }
    let i :=
      if currency ≠ "" then
        { i with detected_currency := some currency
                 currency_symbol := some currency_symbol }
      else i
    match env.hero with
    | .error e => { i with errors := i.errors ++ ["Product extraction error: " ++ e] }
    | .ok hs => { i with hero_products := hs }

/-- scraper.py `_extract_brand_context` (lines 147-157). -/
def legacy_extract_brand_context (env : LegacyEnv) (i : BrandInsights) : BrandInsights :=
  match env.brandContext with
  | .ok v => { i with brand_context := v }
  | .error e => { i with errors := i.errors ++ ["Brand context extraction error: " ++ e] }

/-- scraper.py `_extract_policies` (lines 159-169). -/
def legacy_extract_policies (env : LegacyEnv) (i : BrandInsights) : BrandInsights :=
  match env.policies with
  | .ok v => { i with policies := v }
  | .error e => { i with errors := i.errors ++ ["Policy extraction error: " ++ e] }

/-- scraper.py `_extract_faqs` (lines 171-181). -/
def legacy_extract_faqs (env : LegacyEnv) (i : BrandInsights) : BrandInsights :=
  match env.faqs with
  | .ok v => { i with faqs := v }
  | .error e => { i with errors := i.errors ++ ["FAQ extraction error: " ++ e] }

/-- scraper.py `_extract_social_handles` (lines 183-193). -/
def legacy_extract_socials (env : LegacyEnv) (i : BrandInsights) : BrandInsights :=
  match env.socials with
  | .ok v => { i with social_handles := v }
  | .error e => { i with errors := i.errors ++ ["Social handles extraction error: " ++ e] }

/-- scraper.py `_extract_contact_details` (lines 195-205). -/
def legacy_extract_contacts (env : LegacyEnv) (i : BrandInsights) : BrandInsights :=
  match env.contacts with
  | .ok v => { i with contact_details := v }
  | .error e => { i with errors := i.errors ++ ["Contact details extraction error: " ++ e] }

/-- scraper.py `_extract_important_links` (lines 207-213). -/
def legacy_extract_links (env : LegacyEnv) (i : BrandInsights) : BrandInsights :=
  match env.links with
  | .ok v => { i with important_links := v }
  | .error e => { i with errors := i.errors ++ ["Important links extraction error: " ++ e] }

/-- The AI-validation try block of lines 84-90. -/
def legacy_ai_step (env : LegacyEnv) (i : BrandInsights) : BrandInsights :=
  match env.aiValidation with
  | .ok v => { i with ai_validation := some v }
  | .error e => { i with errors := i.errors ++ ["AI validation error: " ++ e] }

/-- The competitor-analysis try block of lines 92-98. -/
def legacy_competitor_step (env : LegacyEnv) (i : BrandInsights) : BrandInsights :=
  match env.competitor with
  | .ok v => { i with competitor_analysis := some v }
  | .error e => { i with errors := i.errors ++ ["Competitor analysis error: " ++ e] }

/-- The database-save try block of lines 100-110 (a falsy id only logs). -/
def legacy_db_step (env : LegacyEnv) (i : BrandInsights) : BrandInsights :=
  match env.dbSave with
  | .ok _ => i
  | .error e => { i with errors := i.errors ++ ["Database save error: " ++ e] }

/-- scraper.py `extract_all_insights` (lines 34-116): normalize, check the
homepage, run the seven facet helpers (disjoint fields; error strings
appended), set the product count, then best-effort AI validation, competitor
analysis and database save. The record's `extraction_success` field is never
assigned anywhere in this pipeline. -/
def extract_all_insights (env : LegacyEnv) (url : String) : Except String BrandInsights :=
  let url := normalize_url url
  if env.fetchStatus == 404 then .error "Website not found"
  else if 400 ≤ env.fetchStatus then .error ("HTTP error " ++ toString env.fetchStatus)
  else
    let i : BrandInsights :=
      { website_url := url, brand_context := {}, policies := {}
        social_handles := {}, contact_details := {}, important_links := {} }
    let i := legacy_extract_products env i
    let i := legacy_extract_brand_context env i
    let i := legacy_extract_policies env i
    let i := legacy_extract_faqs env i
    let i := legacy_extract_socials env i
    let i := legacy_extract_contacts env i
    let i := legacy_extract_links env i
    let i := { i with total_products_found := i.product_catalog.length }
    let i := legacy_ai_step env i
    let i := legacy_competitor_step env i
    let i := legacy_db_step env i
    .ok i

theorem legacy_extract_products_success (env : LegacyEnv) (i : BrandInsights) :
    (legacy_extract_products env i).extraction_success = i.extraction_success := by
  unfold legacy_extract_products
  rcases env.catalog with e | ⟨ps, cur, sym⟩
  · rfl
  · dsimp only
    rcases env.hero with e | hs <;> split <;> (try split) <;> simp

theorem legacy_extract_brand_context_success (env : LegacyEnv) (i : BrandInsights) :
    (legacy_extract_brand_context env i).extraction_success = i.extraction_success := by
  unfold legacy_extract_brand_context
  rcases env.brandContext with e | v <;> rfl

theorem legacy_extract_policies_success (env : LegacyEnv) (i : BrandInsights) :
    (legacy_extract_policies env i).extraction_success = i.extraction_success := by
  unfold legacy_extract_policies
  rcases env.policies with e | v <;> rfl

theorem legacy_extract_faqs_success (env : LegacyEnv) (i : BrandInsights) :
    (legacy_extract_faqs env i).extraction_success = i.extraction_success := by
  unfold legacy_extract_faqs
  rcases env.faqs with e | v <;> rfl

theorem legacy_extract_socials_success (env : LegacyEnv) (i : BrandInsights) :
    (legacy_extract_socials env i).extraction_success = i.extraction_success := by
  unfold legacy_extract_socials
  rcases env.socials with e | v <;> rfl

theorem legacy_extract_contacts_success (env : LegacyEnv) (i : BrandInsights) :
    (legacy_extract_contacts env i).extraction_success = i.extraction_success := by
  unfold legacy_extract_contacts
  rcases env.contacts with e | v <;> rfl

theorem legacy_extract_links_success (env : LegacyEnv) (i : BrandInsights) :
    (legacy_extract_links env i).extraction_success = i.extraction_success := by
  unfold legacy_extract_links
  rcases env.links with e | v <;> rfl

theorem legacy_ai_step_success (env : LegacyEnv) (i : BrandInsights) :
    (legacy_ai_step env i).extraction_success = i.extraction_success := by
  unfold legacy_ai_step
  rcases env.aiValidation with e | v <;> rfl

theorem legacy_competitor_step_success (env : LegacyEnv) (i : BrandInsights) :
    (legacy_competitor_step env i).extraction_success = i.extraction_success := by
  unfold legacy_competitor_step
  rcases env.competitor with e | v <;> rfl

theorem legacy_db_step_success (env : LegacyEnv) (i : BrandInsights) :
    (legacy_db_step env i).extraction_success = i.extraction_success := by
  unfold legacy_db_step
  rcases env.dbSave with e | v <;> rfl

/-- C10: every record the legacy pipeline returns has
`extraction_success = true` — the pydantic default — regardless of whether
any facet produced data: the pipeline never recomputes the flag. -/
theorem C10_legacy_extraction_success (env : LegacyEnv) (url : String)
    (i : BrandInsights) (h : extract_all_insights env url = .ok i) :
    i.extraction_success = true := by
  unfold extract_all_insights at h
  split at h
  · exact absurd h (by simp)
  · split at h
    · exact absurd h (by simp)
    · have hi := (Except.ok.inj h).symm
      rw [hi]
      simp only [legacy_db_step_success, legacy_competitor_step_success,
        legacy_ai_step_success, legacy_extract_links_success,
        legacy_extract_contacts_success, legacy_extract_socials_success,
        legacy_extract_faqs_success, legacy_extract_policies_success,
        legacy_extract_brand_context_success, legacy_extract_products_success]

/-- A legacy run where every collaborator fails — no facet produced data. -/
def envLegacyAllFail : LegacyEnv :=
  { fetchStatus := 200
    catalog := .error "boom", hero := .error "boom", brandContext := .error "boom"
    policies := .error "boom", faqs := .error "boom", socials := .error "boom"
    contacts := .error "boom", links := .error "boom", aiValidation := .error "boom"
    competitor := .error "boom", dbSave := .error "boom" }

/-- C10 witness: even with EVERY facet extraction failing, the returned
record reports `extraction_success = true`. -/
theorem C10_legacy_extraction_success_witness :
    (extract_all_insights envLegacyAllFail "shop.example.com").toOption.map
      (·.extraction_success) = some true := by
  obtain ⟨i, hi⟩ :
      ∃ i, extract_all_insights envLegacyAllFail "shop.example.com" = .ok i := ⟨_, rfl⟩
  rw [hi]
  have hs := C10_legacy_extraction_success envLegacyAllFail "shop.example.com" i hi
  simp [Except.toOption, hs]

end Shopify
